import Mathlib

/-!
Shallow embedding of the game-controller input buffering core
(`src/input/controller.cpp`, namespace `Input`): the state-history ring
buffer (`GameController::AddState`, `GetLastState`, `ReadState`,
`ReadStates`), the event-ingest paths (`CheckButton`, `Axis`) with the
trigger hysteresis derivation, and the LED/rumble backend delegation
(`SetLightBarRGB`, `SetVibration`).

Machine integers are modelled as `Nat` (with explicit 32-bit masking where
the C++ uses `u32` bitwise complement); the out-parameter buffer of
`ReadStates` is modelled as the list of records written, in order; the
mutex is not modelled (every operation is one atomic function on the
controller state, which is exactly the granularity the lock enforces).
-/

namespace Input

/-- Modelled from the spec: `MAX_STATES`, the fixed ring capacity, is declared
in `input/controller.h` which is not part of the sources; the spec calls it
"a small integer; 64 is a reasonable default". -/
def MAX_STATES : Nat := 64

/-- Modelled from the spec: the axis enumeration from `input/controller.h`
(not part of the sources); the spec lists LeftStickX, LeftStickY,
RightStickX, RightStickY, TriggerLeft, TriggerRight. -/
inductive Axis where
  | LeftStickX
  | LeftStickY
  | RightStickX
  | RightStickY
  | TriggerLeft
  | TriggerRight
deriving DecidableEq, Fintype

namespace Pad

/-- Modelled from the spec: the guest pad ABI bit for L2 from
`core/libraries/pad/pad.h` (not part of the sources); the spec leaves the
bit position to the pad ABI, so we fix a single-bit mask. -/
def ORBIS_PAD_BUTTON_L2 : Nat := 2 ^ 8

/-- Modelled from the spec: the guest pad ABI bit for R2 from
`core/libraries/pad/pad.h` (not part of the sources). -/
def ORBIS_PAD_BUTTON_R2 : Nat := 2 ^ 9

end Pad

/-- One sampled controller state (`struct State` of `input/controller.h`):
timestamp, 32-bit button bitmask, axis vector. The axis vector is modelled
as a total function on the axis enumeration. -/
structure State where
  time : Nat
  buttonsState : Nat
  axes : Axis → Int

/-- The default-constructed `State()`: all zero. -/
def State.zero : State :=
  { time := 0, buttonsState := 0, axes := fun _ => 0 }

instance : DecidableEq State := fun s t =>
  decidable_of_iff
    (s.time = t.time ∧ s.buttonsState = t.buttonsState ∧ ∀ a, s.axes a = t.axes a)
    (by cases s; cases t; simp [funext_iff])

/-- Bitwise complement on a 32-bit value (`~button` on a C++ `u32`),
exact for arguments below `2 ^ 32`. -/
def u32Not (x : Nat) : Nat := 0xFFFFFFFF ^^^ x

/-- The `GameController` state: the ring storage `m_states`, the parallel
`obtained` bitmap `m_private`, `m_states_num`, `m_first_state`,
`m_last_state`, the connection metadata and the (opaque) SDL handle.
The two storage arrays have fixed length `MAX_STATES`; that is recorded by
the well-formedness predicate `WF` below. -/
structure GameController where
  states : List State
  obtained : List Bool
  statesNum : Nat
  firstState : Nat
  lastState : State
  connected : Bool
  connectedCount : Int
  sdlGamepad : Option Unit

/-- Well-formedness: the storage arrays have their C++ (fixed) length. -/
def GameController.WF (c : GameController) : Prop :=
  c.states.length = MAX_STATES ∧ c.obtained.length = MAX_STATES

instance (c : GameController) : Decidable c.WF := by
  unfold GameController.WF; infer_instance

/-- The freshly constructed controller (`GameController::GameController`
together with the in-class member initialisers of `controller.h`, modelled
from the spec lifecycle: count 0, first 0, last_state zero, connected
false, connected_count 0, no backend handle). -/
def initController : GameController :=
  { states := List.replicate MAX_STATES State.zero
    obtained := List.replicate MAX_STATES false
    statesNum := 0
    firstState := 0
    lastState := State.zero
    connected := false
    connectedCount := 0
    sdlGamepad := none }

/-- `GameController::GetLastState`. -/
def GameController.GetLastState (c : GameController) : State :=
  if c.statesNum = 0 then
    c.lastState
  else
    c.states.getD ((c.firstState + c.statesNum - 1) % MAX_STATES) State.zero

/-- `GameController::ReadState`: returns the three out-parameter values
(`*state`, `*isConnected`, `*connectedCount`) and the controller state
after the call. -/
def GameController.ReadState (c : GameController) :
    State × Bool × Int × GameController :=
  (c.GetLastState, c.connected, c.connectedCount, c)

/-- `GameController::AddState`. -/
def GameController.AddState (c : GameController) (state : State) : GameController :=
  let c :=
    if MAX_STATES ≤ c.statesNum then
      { c with statesNum := MAX_STATES - 1,
               firstState := (c.firstState + 1) % MAX_STATES }
    else c
  let index := (c.firstState + c.statesNum) % MAX_STATES
  { c with states := c.states.set index state
           lastState := state
           obtained := c.obtained.set index false
           statesNum := c.statesNum + 1 }

/-- The `for` loop of `GameController::ReadStates`: `fuel` counts the
remaining iterations, `i` is the loop counter, `obt` the current obtained
bitmap, `out` the records written so far (the out buffer). `sts` is
`m_states`, `first` is `m_first_state`, `cap` the `states_num` argument. -/
def readStatesLoop (sts : List State) (first : Nat) (cap : Int) :
    Nat → Nat → List Bool → List State → List Bool × List State
  | 0, _, obt, out => (obt, out)
  | fuel + 1, i, obt, out =>
    if cap ≤ (out.length : Int) then (obt, out)
    else
      let index := (first + i) % MAX_STATES
      if obt.getD index false then
        readStatesLoop sts first cap fuel (i + 1) obt out
      else
        readStatesLoop sts first cap fuel (i + 1) (obt.set index true)
          (out ++ [sts.getD index State.zero])

/-- Result of `GameController::ReadStates`: the records written into the
out buffer (in order), the returned count `ret_num`, the two metadata
out-parameters, and the controller state after the call. -/
structure ReadStatesOut where
  written : List State
  retNum : Nat
  isConnected : Bool
  connectedCount : Int
  ctrl : GameController

/-- `GameController::ReadStates` with capacity argument `cap`
(the C++ `int states_num`). -/
def GameController.ReadStates (c : GameController) (cap : Int) : ReadStatesOut :=
  if c.connected then
    if c.statesNum = 0 then
      { written := [c.lastState], retNum := 1, isConnected := c.connected,
        connectedCount := c.connectedCount, ctrl := c }
    else
      let r := readStatesLoop c.states c.firstState cap c.statesNum 0 c.obtained []
      { written := r.2, retNum := r.2.length, isConnected := c.connected,
        connectedCount := c.connectedCount, ctrl := { c with obtained := r.1 } }
  else
    { written := [], retNum := 0, isConnected := c.connected,
      connectedCount := c.connectedCount, ctrl := c }

/-- `GameController::CheckButton`. The timestamp source
(`sceKernelGetProcessTime`, external to this subsystem) is passed in as
`now`. -/
def GameController.CheckButton (c : GameController) (now : Nat) (button : Nat)
    (isPressed : Bool) : GameController :=
  let state := c.GetLastState
  let state := { state with time := now }
  let state :=
    if isPressed then
      { state with buttonsState := state.buttonsState ||| button }
    else
      { state with buttonsState := state.buttonsState &&& u32Not button }
  c.AddState state

/-- The trigger hysteresis thresholds of `GameController::Axis`. -/
def ON_THRESHOLD : Int := 31

/-- The trigger hysteresis thresholds of `GameController::Axis`. -/
def OFF_THRESHOLD : Int := 16

/-- `GameController::Axis` (the axis-event ingest method). The timestamp
source is passed in as `now`. -/
def GameController.Axis (c : GameController) (now : Nat) (axis : Input.Axis)
    (value : Int) : GameController :=
  let state := c.GetLastState
  let state := { state with time := now }
  let state := { state with axes := Function.update state.axes axis value }
  let state :=
    if axis = Input.Axis.TriggerLeft then
      if ON_THRESHOLD < value then
        { state with buttonsState := state.buttonsState ||| Pad.ORBIS_PAD_BUTTON_L2 }
      else if value < OFF_THRESHOLD then
        { state with buttonsState := state.buttonsState &&& u32Not Pad.ORBIS_PAD_BUTTON_L2 }
      else state
    else state
  let state :=
    if axis = Input.Axis.TriggerRight then
      if ON_THRESHOLD < value then
        { state with buttonsState := state.buttonsState ||| Pad.ORBIS_PAD_BUTTON_R2 }
      else if value < OFF_THRESHOLD then
        { state with buttonsState := state.buttonsState &&& u32Not Pad.ORBIS_PAD_BUTTON_R2 }
      else state
    else state
  c.AddState state

/-- `GameController::SetLightBarRGB`: returns the command forwarded to the
backend (`none` when the handle is null, i.e. no backend call) and the
controller state after the call. -/
def GameController.SetLightBarRGB (c : GameController) (r g b : Nat) :
    Option (Nat × Nat × Nat) × GameController :=
  match c.sdlGamepad with
  | some _ => (some (r, g, b), c)
  | none => (none, c)

/-- `GameController::SetVibration`: `backendOk` models the success of the
external `SDL_RumbleGamepad` call, consulted only when the handle is
non-null; returns the C++ return value and the controller state after the
call. -/
def GameController.SetVibration (c : GameController) (smallMotor largeMotor : Nat)
    (backendOk : Bool) : Bool × GameController :=
  match c.sdlGamepad with
  | some _ => (backendOk, c)
  | none => (true, c)

/-- The slot offsets (loop-counter values, i.e. positions relative to
`m_first_state`) at which the `ReadStates` loop writes a sample: among the
offsets `[i, i + fuel)` those whose slot is not yet obtained, truncated to
the first `room` of them (`room` is the remaining buffer capacity). -/
def drainOffsets (obt : List Bool) (first i fuel room : Nat) : List Nat :=
  ((List.range' i fuel).filter
    (fun j => !(obt.getD ((first + j) % MAX_STATES) false))).take room

/-- The obtained bitmap after marking the slots at the given offsets. -/
def markObtained (obt : List Bool) (first : Nat) (offs : List Nat) : List Bool :=
  offs.foldl (fun o j => o.set ((first + j) % MAX_STATES) true) obt

/-- The live samples of the ring, in append (oldest-to-newest) order. -/
def liveList (c : GameController) : List State :=
  (List.range c.statesNum).map
    (fun i => c.states.getD ((c.firstState + i) % MAX_STATES) State.zero)

/-- The timestamp of the `k`-th live sample (in append order). -/
def liveTime (c : GameController) (k : Nat) : Nat :=
  (c.states.getD ((c.firstState + k) % MAX_STATES) State.zero).time

/-- An ingest event, carrying the value the timestamp source returns
during its critical section. -/
inductive Ev where
  | button (now : Nat) (mask : Nat) (pressed : Bool)
  | axis (now : Nat) (a : Axis) (v : Int)

/-- The timestamp-source value read while the event is processed. -/
def Ev.now : Ev → Nat
  | .button n _ _ => n
  | .axis n _ _ => n

/-- Dispatch an ingest event to its handler. -/
def applyEv (c : GameController) (e : Ev) : GameController :=
  match e with
  | .button n m p => c.CheckButton n m p
  | .axis n a v => c.Axis n a v

/-- The slot index at which `AddState` places the new record: `(first +
count) % MAX_STATES` computed after the wrap-around clamp. -/
def newIndex (c : GameController) : Nat :=
  if MAX_STATES ≤ c.statesNum then
    ((c.firstState + 1) % MAX_STATES + (MAX_STATES - 1)) % MAX_STATES
  else (c.firstState + c.statesNum) % MAX_STATES

/-- Timestamp invariant: the live samples have non-decreasing timestamps
in append order, all bounded by `B` (the last value the timestamp source
returned). -/
def TimeInv (c : GameController) (B : Nat) : Prop :=
  (∀ i j, i ≤ j → j < c.statesNum → liveTime c i ≤ liveTime c j) ∧
  (∀ j, j < c.statesNum → liveTime c j ≤ B)

theorem MAX_STATES_eq : MAX_STATES = 64 := rfl

theorem getD_set_self {α : Type} (l : List α) (i : Nat) (a d : α) (h : i < l.length) :
    (l.set i a).getD i d = a := by
  rw [List.getD_eq_getElem?_getD, List.getElem?_set_eq_of_lt a h]
  rfl

theorem getD_set_ne {α : Type} (l : List α) (i j : Nat) (a d : α) (h : i ≠ j) :
    (l.set i a).getD j d = l.getD j d := by
  rw [List.getD_eq_getElem?_getD, List.getD_eq_getElem?_getD, List.getElem?_set_ne h]

theorem newIndex_lt (c : GameController) : newIndex c < MAX_STATES := by
  unfold newIndex
  split <;> exact Nat.mod_lt _ (by simp [MAX_STATES])

/-- `AddState` written as one record literal: the clamp applied to `first`
and `count`, the two array writes at `newIndex`, the increment, and the
`last_state` update. -/
theorem AddState_def (c : GameController) (s : State) :
    c.AddState s =
      { states := c.states.set (newIndex c) s
        obtained := c.obtained.set (newIndex c) false
        statesNum := (if MAX_STATES ≤ c.statesNum then MAX_STATES - 1 else c.statesNum) + 1
        firstState :=
          if MAX_STATES ≤ c.statesNum then (c.firstState + 1) % MAX_STATES else c.firstState
        lastState := s
        connected := c.connected
        connectedCount := c.connectedCount
        sdlGamepad := c.sdlGamepad } := by
  unfold GameController.AddState newIndex
  by_cases hc : MAX_STATES ≤ c.statesNum <;> simp [hc]

theorem getLast_AddState (c : GameController) (s : State) (h : c.WF) :
    (c.AddState s).GetLastState = s := by
  obtain ⟨hs, _⟩ := h
  unfold GameController.AddState GameController.GetLastState
  by_cases hc : MAX_STATES ≤ c.statesNum
  · simp only [hc, if_true, Nat.succ_ne_zero, if_false, Nat.add_sub_cancel]
    exact getD_set_self _ _ _ _
      (by rw [hs]; exact Nat.mod_lt _ (by simp [MAX_STATES]))
  · simp only [hc, if_false, Nat.succ_ne_zero, Nat.add_sub_cancel]
    exact getD_set_self _ _ _ _
      (by rw [hs]; exact Nat.mod_lt _ (by simp [MAX_STATES]))

/-- C7: `ReadState` copies `connected`, `connected_count` and the latest
state into its out parameters and leaves the whole controller state (ring
slots, obtained flags, first, count, last_state, connection metadata)
unchanged. -/
theorem C7_readState_copies_and_preserves (c : GameController) :
    c.ReadState = (c.GetLastState, c.connected, c.connectedCount, c) := rfl

/-- C9: with a null backend handle, `SetLightBarRGB` issues no backend
command and `SetVibration` returns success; neither touches the controller
state. -/
theorem C9_null_handle (c : GameController) (r g b small large : Nat) (ok : Bool)
    (h : c.sdlGamepad = none) :
    c.SetLightBarRGB r g b = (none, c) ∧
      c.SetVibration small large ok = (true, c) := by
  constructor <;> simp [GameController.SetLightBarRGB, GameController.SetVibration, h]

theorem C9_null_handle_witness :
    initController.sdlGamepad = none ∧
      (initController.SetLightBarRGB 1 2 3 = (none, initController) ∧
        initController.SetVibration 4 5 false = (true, initController)) :=
  ⟨rfl, C9_null_handle initController 1 2 3 4 5 false rfl⟩

/-- C5: `ReadStates` on a disconnected controller returns 0, writes
nothing, and leaves the controller state entirely unchanged, for every
capacity argument and prior history. -/
theorem C5_disconnected_drain (c : GameController) (cap : Int)
    (h : c.connected = false) :
    c.ReadStates cap =
      { written := [], retNum := 0, isConnected := false,
        connectedCount := c.connectedCount, ctrl := c } := by
  simp [GameController.ReadStates, h]

theorem C5_disconnected_drain_witness :
    (initController.AddState State.zero).connected = false ∧
      (initController.AddState State.zero).ReadStates 8 =
        { written := [], retNum := 0, isConnected := false,
          connectedCount := (initController.AddState State.zero).connectedCount,
          ctrl := initController.AddState State.zero } :=
  ⟨rfl, C5_disconnected_drain (initController.AddState State.zero) 8 rfl⟩

/-- C4: `ReadStates` on a connected controller with an empty ring writes
the latest state (the last appended one, or the zero default before any
append) into slot 0 of the out buffer and returns 1, for every capacity
argument. -/
theorem C4_empty_connected_drain (c : GameController) (cap : Int)
    (hconn : c.connected = true) (hn : c.statesNum = 0) :
    c.ReadStates cap =
      { written := [c.GetLastState], retNum := 1, isConnected := true,
        connectedCount := c.connectedCount, ctrl := c } := by
  simp [GameController.ReadStates, GameController.GetLastState, hconn, hn]

theorem C4_empty_connected_drain_witness :
    ({ initController with connected := true } : GameController).connected = true ∧
      ({ initController with connected := true } : GameController).statesNum = 0 ∧
      ({ initController with connected := true } : GameController).ReadStates 8 =
        { written := [({ initController with connected := true } : GameController).GetLastState],
          retNum := 1, isConnected := true,
          connectedCount := ({ initController with connected := true } : GameController).connectedCount,
          ctrl := { initController with connected := true } } :=
  ⟨rfl, rfl, C4_empty_connected_drain { initController with connected := true } 8 rfl rfl⟩

/-- C10: when connected with an empty ring, `ReadStates` writes one record
and returns 1 without consulting the capacity argument; in particular with
capacity 0 the returned count exceeds the declared capacity (the write
lands outside the declared buffer bounds). -/
theorem C10_cap_not_consulted (c : GameController) (cap : Int)
    (hconn : c.connected = true) (hn : c.statesNum = 0) :
    (c.ReadStates cap).retNum = 1 ∧
      (c.ReadStates cap).written = [c.GetLastState] ∧
      (0 : Int) < ((c.ReadStates 0).retNum : Int) := by
  simp [GameController.ReadStates, GameController.GetLastState, hconn, hn]

theorem C10_cap_not_consulted_witness :
    ({ initController with connected := true } : GameController).connected = true ∧
      ({ initController with connected := true } : GameController).statesNum = 0 ∧
      (({ initController with connected := true } : GameController).ReadStates 0).retNum = 1 ∧
      (({ initController with connected := true } : GameController).ReadStates 0).written =
        [({ initController with connected := true } : GameController).GetLastState] ∧
      (0 : Int) <
        ((({ initController with connected := true } : GameController).ReadStates 0).retNum : Int) :=
  ⟨rfl, rfl, C10_cap_not_consulted { initController with connected := true } 0 rfl rfl⟩

/-- C6: `GetLastState` immediately after `AddState s` returns `s`; on a
freshly constructed controller (before any append) it returns the
default-zero state. (It is a pure function of the controller state, so it
mutates nothing.) -/
theorem C6_latest_after_append (c : GameController) (s : State) (h : c.WF) :
    (c.AddState s).GetLastState = s ∧ initController.GetLastState = State.zero :=
  ⟨getLast_AddState c s h, rfl⟩

theorem statesNum_AddState_le (c : GameController) (s : State)
    (h : c.statesNum ≤ MAX_STATES) : (c.AddState s).statesNum ≤ MAX_STATES := by
  rw [AddState_def]
  by_cases hc : MAX_STATES ≤ c.statesNum <;> simp [hc] <;> rw [MAX_STATES_eq] at * <;> omega

theorem statesNum_foldl_le (ss : List State) :
    ∀ c : GameController, c.statesNum ≤ MAX_STATES →
      (ss.foldl GameController.AddState c).statesNum ≤ MAX_STATES := by
  induction ss with
  | nil => exact fun c h => h
  | cons a t ih => exact fun c h => ih _ (statesNum_AddState_le c a h)

theorem WF_AddState (c : GameController) (s : State) (h : c.WF) :
    (c.AddState s).WF := by
  obtain ⟨hs, ho⟩ := h
  rw [AddState_def]
  exact ⟨by simpa using hs, by simpa using ho⟩

/-- C2: `AddState` on a full ring first advances `first` (mod `MAX_STATES`)
dropping the oldest sample, places the new record at `(first + count) %
MAX_STATES` (computed after the clamp) with its obtained flag cleared,
increments `count`, and sets `last_state`; the count stays in `[0,
MAX_STATES]` after any sequence of appends, is in `[1, MAX_STATES]` after
any append, and the appended sample is the newest live one. -/
theorem C2_append_wraparound (c : GameController) (s : State) (h : c.WF)
    (hcnt : c.statesNum ≤ MAX_STATES) :
    ((c.AddState s).firstState =
        (if c.statesNum = MAX_STATES then (c.firstState + 1) % MAX_STATES
          else c.firstState)) ∧
      (c.AddState s).statesNum =
        (if c.statesNum = MAX_STATES then MAX_STATES else c.statesNum + 1) ∧
      (c.AddState s).states.getD (newIndex c) State.zero = s ∧
      (c.AddState s).obtained.getD (newIndex c) false = false ∧
      (c.AddState s).lastState = s ∧
      1 ≤ (c.AddState s).statesNum ∧ (c.AddState s).statesNum ≤ MAX_STATES ∧
      (c.AddState s).GetLastState = s ∧
      ∀ ss : List State,
        (ss.foldl GameController.AddState initController).statesNum ≤ MAX_STATES := by
  have hWF : c.WF := h
  obtain ⟨hs, ho⟩ := h
  have hg := getLast_AddState c s hWF
  have hb := statesNum_AddState_le c s hcnt
  have h1 : 1 ≤ (c.AddState s).statesNum := by rw [AddState_def]; simp
  have hle : (MAX_STATES ≤ c.statesNum) = (c.statesNum = MAX_STATES) := by
    rw [MAX_STATES_eq] at *
    apply propext
    constructor <;> intro <;> omega
  refine ⟨?_, ?_, ?_, ?_, ?_, h1, hb, hg,
    fun ss => statesNum_foldl_le ss initController (by rw [MAX_STATES_eq]; simp [initController])⟩
  · rw [AddState_def]
    simp only [hle]
  · rw [AddState_def]
    simp only [hle]
    by_cases hfull : c.statesNum = MAX_STATES <;> simp [hfull] <;> rw [MAX_STATES_eq] <;> omega
  · rw [AddState_def]
    exact getD_set_self _ _ _ _ (by rw [hs]; exact newIndex_lt c)
  · rw [AddState_def]
    exact getD_set_self _ _ _ _ (by rw [ho]; exact newIndex_lt c)
  · rw [AddState_def]

theorem C2_append_wraparound_witness :
    initController.WF ∧ initController.statesNum ≤ MAX_STATES ∧
      ((initController.AddState State.zero).lastState = State.zero ∧
        1 ≤ (initController.AddState State.zero).statesNum ∧
        (initController.AddState State.zero).statesNum ≤ MAX_STATES) :=
  ⟨by constructor <;> rfl, by rw [MAX_STATES_eq]; exact Nat.zero_le 64,
    ⟨(C2_append_wraparound initController State.zero (by constructor <;> rfl)
        (by rw [MAX_STATES_eq]; exact Nat.zero_le 64)).2.2.2.2.1,
      (C2_append_wraparound initController State.zero (by constructor <;> rfl)
        (by rw [MAX_STATES_eq]; exact Nat.zero_le 64)).2.2.2.2.2.1,
      (C2_append_wraparound initController State.zero (by constructor <;> rfl)
        (by rw [MAX_STATES_eq]; exact Nat.zero_le 64)).2.2.2.2.2.2.1⟩⟩

/-- Closed form of the `ReadStates` loop: it writes (in order) the samples
at the first `(cap - |out|)⁺` not-yet-obtained offsets of `[i, i + fuel)`,
and marks exactly those slots obtained. -/
theorem readStatesLoop_spec (sts : List State) (first : Nat) (cap : Int) :
    ∀ (fuel i : Nat) (obt : List Bool) (out : List State),
      obt.length = MAX_STATES → i + fuel ≤ MAX_STATES →
      readStatesLoop sts first cap fuel i obt out =
        (markObtained obt first
            (drainOffsets obt first i fuel ((cap - out.length).toNat)),
          out ++ (drainOffsets obt first i fuel ((cap - out.length).toNat)).map
            (fun j => sts.getD ((first + j) % MAX_STATES) State.zero)) := by
  intro fuel
  induction fuel with
  | zero =>
    intro i obt out hlen hle
    simp [readStatesLoop, drainOffsets, markObtained]
  | succ n ih =>
    intro i obt out hlen hle
    rw [readStatesLoop]
    by_cases hcap : cap ≤ (out.length : Int)
    · have h0 : (cap - (out.length : Int)).toNat = 0 := by omega
      simp [hcap, h0, drainOffsets, markObtained]
    · rw [if_neg hcap]
      have hroom : (cap - (out.length : Int)).toNat =
          (cap - ((out.length : Int) + 1)).toNat + 1 := by omega
      have hrange : List.range' i (n + 1) = i :: List.range' (i + 1) n := rfl
      by_cases hobt : obt.getD ((first + i) % MAX_STATES) false = true
      · rw [if_pos hobt, ih (i + 1) obt out hlen (by omega)]
        have hoffs : drainOffsets obt first i (n + 1) ((cap - (out.length : Int)).toNat) =
            drainOffsets obt first (i + 1) n ((cap - (out.length : Int)).toNat) := by
          unfold drainOffsets
          rw [hrange, List.filter_cons]
          have hobt2 : (obt[(first + i) % MAX_STATES]?).getD false = true := by
            rw [← List.getD_eq_getElem?_getD]
            exact hobt
          simp [hobt2]
        rw [hoffs]
      · rw [if_neg hobt]
        rw [ih (i + 1) (obt.set ((first + i) % MAX_STATES) true)
          (out ++ [sts.getD ((first + i) % MAX_STATES) State.zero])
          (by rw [List.length_set]; exact hlen) (by omega)]
        have hb : obt.getD ((first + i) % MAX_STATES) false = false := by
          simpa using hobt
        have hfilter : (List.range' (i + 1) n).filter
              (fun j => !((obt.set ((first + i) % MAX_STATES) true).getD
                ((first + j) % MAX_STATES) false)) =
            (List.range' (i + 1) n).filter
              (fun j => !(obt.getD ((first + j) % MAX_STATES) false)) := by
          apply List.filter_congr
          intro j hj
          rw [List.mem_range'_1] at hj
          have hne : (first + i) % MAX_STATES ≠ (first + j) % MAX_STATES := by
            rw [MAX_STATES_eq] at *
            omega
          rw [getD_set_ne _ _ _ _ _ hne]
        have hlen1 : ((out ++ [sts.getD ((first + i) % MAX_STATES) State.zero]).length : Int) =
            (out.length : Int) + 1 := by simp
        have hoffs : drainOffsets obt first i (n + 1) ((cap - (out.length : Int)).toNat) =
            i :: drainOffsets (obt.set ((first + i) % MAX_STATES) true) first (i + 1) n
              ((cap - ((out ++ [sts.getD ((first + i) % MAX_STATES) State.zero]).length : Int)).toNat) := by
          unfold drainOffsets
          rw [hrange, List.filter_cons, hfilter, hlen1]
          simp only [hb, Bool.not_false, if_true]
          rw [hroom, List.take_succ_cons]
        rw [hoffs]
        simp [markObtained]

theorem length_markObtained (first : Nat) :
    ∀ (offs : List Nat) (obt : List Bool),
      (markObtained obt first offs).length = obt.length := by
  intro offs
  induction offs with
  | nil => intro obt; rfl
  | cons a t ih =>
    intro obt
    have hstep : markObtained obt first (a :: t) =
        markObtained (obt.set ((first + a) % MAX_STATES) true) first t := rfl
    rw [hstep, ih, List.length_set]

theorem markObtained_getD_true (first : Nat) :
    ∀ (offs : List Nat) (obt : List Bool), obt.length = MAX_STATES →
      ∀ idx, obt.getD idx false = true →
        (markObtained obt first offs).getD idx false = true := by
  intro offs
  induction offs with
  | nil => intro obt _ idx h; exact h
  | cons a t ih =>
    intro obt hlen idx h
    have hstep : markObtained obt first (a :: t) =
        markObtained (obt.set ((first + a) % MAX_STATES) true) first t := rfl
    rw [hstep]
    apply ih _ (by rw [List.length_set]; exact hlen)
    by_cases heq : (first + a) % MAX_STATES = idx
    · rw [← heq]
      exact getD_set_self _ _ _ _
        (by rw [hlen]; exact Nat.mod_lt _ (by simp [MAX_STATES]))
    · rw [getD_set_ne _ _ _ _ _ heq]
      exact h

theorem markObtained_getD_mem (first : Nat) :
    ∀ (offs : List Nat) (obt : List Bool), obt.length = MAX_STATES →
      ∀ j ∈ offs,
        (markObtained obt first offs).getD ((first + j) % MAX_STATES) false = true := by
  intro offs
  induction offs with
  | nil => intro obt _ j hj; cases hj
  | cons a t ih =>
    intro obt hlen j hj
    have hstep : markObtained obt first (a :: t) =
        markObtained (obt.set ((first + a) % MAX_STATES) true) first t := rfl
    rw [hstep]
    rcases List.mem_cons.mp hj with hja | hjt
    · subst hja
      apply markObtained_getD_true first t _ (by rw [List.length_set]; exact hlen)
      exact getD_set_self _ _ _ _
        (by rw [hlen]; exact Nat.mod_lt _ (by simp [MAX_STATES]))
    · exact ih _ (by rw [List.length_set]; exact hlen) j hjt

theorem drainOffsets_getD_false (obt : List Bool) (first fuel room : Nat) :
    ∀ j ∈ drainOffsets obt first 0 fuel room,
      obt.getD ((first + j) % MAX_STATES) false = false := by
  intro j hj
  have hj2 := List.mem_of_mem_take hj
  have := (List.mem_filter.mp hj2).2
  simpa using this

/-- `ReadStates` on a connected, non-empty ring, as one record literal:
the written samples are those at the drained offsets, `ret_num` counts
them, and the obtained bitmap is updated at exactly those slots. -/
theorem ReadStates_nonempty (c : GameController) (cap : Int)
    (h : c.WF) (hconn : c.connected = true) (hne : c.statesNum ≠ 0)
    (hcnt : c.statesNum ≤ MAX_STATES) :
    c.ReadStates cap =
      { written := (drainOffsets c.obtained c.firstState 0 c.statesNum cap.toNat).map
            (fun j => c.states.getD ((c.firstState + j) % MAX_STATES) State.zero)
        retNum := ((drainOffsets c.obtained c.firstState 0 c.statesNum cap.toNat).map
            (fun j => c.states.getD ((c.firstState + j) % MAX_STATES) State.zero)).length
        isConnected := true
        connectedCount := c.connectedCount
        ctrl := { c with
          obtained := markObtained c.obtained c.firstState
              (drainOffsets c.obtained c.firstState 0 c.statesNum cap.toNat) } } := by
  unfold GameController.ReadStates
  rw [readStatesLoop_spec c.states c.firstState cap c.statesNum 0 c.obtained [] h.2
    (by omega)]
  simp [hconn, hne]

/-- C1: on a connected, non-empty ring, `ReadStates` writes exactly the
samples at the not-yet-obtained offsets in append (oldest-to-newest)
order — a sublist of the live samples — writes at most `min(cap, count)`
of them, skips every live slot whose obtained flag is already set, sets
the obtained flag of each slot it writes, and returns the number written;
consequently an immediately following drain writes a disjoint set of
slots, so no sample is returned twice. -/
theorem C1_drain_exactly_once (c : GameController) (cap cap2 : Int) (h : c.WF)
    (hconn : c.connected = true) (hne : c.statesNum ≠ 0)
    (hcnt : c.statesNum ≤ MAX_STATES) :
    (c.ReadStates cap).written =
        (drainOffsets c.obtained c.firstState 0 c.statesNum cap.toNat).map
          (fun j => c.states.getD ((c.firstState + j) % MAX_STATES) State.zero) ∧
      (c.ReadStates cap).retNum = (c.ReadStates cap).written.length ∧
      (c.ReadStates cap).retNum ≤ cap.toNat ∧
      (c.ReadStates cap).retNum ≤ c.statesNum ∧
      List.Sublist (c.ReadStates cap).written (liveList c) ∧
      (∀ j ∈ drainOffsets c.obtained c.firstState 0 c.statesNum cap.toNat,
        c.obtained.getD ((c.firstState + j) % MAX_STATES) false = false) ∧
      (∀ j ∈ drainOffsets c.obtained c.firstState 0 c.statesNum cap.toNat,
        (c.ReadStates cap).ctrl.obtained.getD ((c.firstState + j) % MAX_STATES) false
          = true) ∧
      ((c.ReadStates cap).ctrl.ReadStates cap2).written =
        (drainOffsets (c.ReadStates cap).ctrl.obtained c.firstState 0 c.statesNum
            cap2.toNat).map
          (fun j => c.states.getD ((c.firstState + j) % MAX_STATES) State.zero) ∧
      List.Disjoint
        (drainOffsets (c.ReadStates cap).ctrl.obtained c.firstState 0 c.statesNum
          cap2.toNat)
        (drainOffsets c.obtained c.firstState 0 c.statesNum cap.toNat) := by
  obtain ⟨hs, ho⟩ := h
  have hro := ReadStates_nonempty c cap ⟨hs, ho⟩ hconn hne hcnt
  have hlen2 : (markObtained c.obtained c.firstState
      (drainOffsets c.obtained c.firstState 0 c.statesNum cap.toNat)).length
        = MAX_STATES := by
    rw [length_markObtained]
    exact ho
  have hro2 := ReadStates_nonempty
    { c with
      obtained := markObtained c.obtained c.firstState
          (drainOffsets c.obtained c.firstState 0 c.statesNum cap.toNat) }
    cap2 ⟨hs, hlen2⟩ hconn hne hcnt
  rw [hro]
  refine ⟨rfl, rfl, ?_, ?_, ?_, ?_, ?_, ?_, ?_⟩
  · rw [List.length_map]
    unfold drainOffsets
    rw [List.length_take]
    exact Nat.min_le_left _ _
  · rw [List.length_map]
    unfold drainOffsets
    calc (((List.range' 0 c.statesNum).filter _).take cap.toNat).length
        ≤ ((List.range' 0 c.statesNum).filter _).length := by
          rw [List.length_take]; exact Nat.min_le_right _ _
      _ ≤ (List.range' 0 c.statesNum).length := List.length_filter_le _ _
      _ = c.statesNum := List.length_range' _ _ _
  · unfold liveList drainOffsets
    rw [List.range_eq_range']
    exact ((List.take_sublist _ _).trans (List.filter_sublist _)).map _
  · exact drainOffsets_getD_false c.obtained c.firstState c.statesNum cap.toNat
  · intro j hj
    exact markObtained_getD_mem c.firstState _ c.obtained ho j hj
  · rw [hro2]
  · intro j hj2 hj1
    have hfalse : (markObtained c.obtained c.firstState
        (drainOffsets c.obtained c.firstState 0 c.statesNum cap.toNat)).getD
          ((c.firstState + j) % MAX_STATES) false = false :=
      drainOffsets_getD_false _ c.firstState c.statesNum cap2.toNat j hj2
    have htrue := markObtained_getD_mem c.firstState
      (drainOffsets c.obtained c.firstState 0 c.statesNum cap.toNat) c.obtained ho j hj1
    rw [hfalse] at htrue
    exact absurd htrue (by decide)

theorem C1_drain_exactly_once_witness :
    ({ (initController.AddState State.zero).AddState
        { time := 1, buttonsState := 3, axes := fun _ => 0 } with
      connected := true } : GameController).WF ∧
      ({ (initController.AddState State.zero).AddState
          { time := 1, buttonsState := 3, axes := fun _ => 0 } with
        connected := true } : GameController).connected = true ∧
      ({ (initController.AddState State.zero).AddState
          { time := 1, buttonsState := 3, axes := fun _ => 0 } with
        connected := true } : GameController).statesNum ≠ 0 ∧
      ({ (initController.AddState State.zero).AddState
          { time := 1, buttonsState := 3, axes := fun _ => 0 } with
        connected := true } : GameController).statesNum ≤ MAX_STATES ∧
      (({ (initController.AddState State.zero).AddState
          { time := 1, buttonsState := 3, axes := fun _ => 0 } with
        connected := true } : GameController).ReadStates 10).retNum ≤ (10 : Int).toNat :=
  ⟨by constructor <;> rfl, rfl, by decide, by decide,
    (C1_drain_exactly_once
      { (initController.AddState State.zero).AddState
          { time := 1, buttonsState := 3, axes := fun _ => 0 } with
        connected := true } 10 5 (by constructor <;> rfl) rfl (by decide)
      (by decide)).2.2.1⟩

theorem L2_testBit : Pad.ORBIS_PAD_BUTTON_L2.testBit 8 = true := by decide

theorem R2_testBit : Pad.ORBIS_PAD_BUTTON_R2.testBit 9 = true := by decide

theorem u32Not_L2_testBit : (u32Not Pad.ORBIS_PAD_BUTTON_L2).testBit 8 = false := by decide

theorem u32Not_R2_testBit : (u32Not Pad.ORBIS_PAD_BUTTON_R2).testBit 9 = false := by decide

/-- C3: processing a `TriggerLeft` (resp. `TriggerRight`) axis event sets
the L2 (resp. R2) derived button bit when the value exceeds 31, clears it
below 16, and leaves it unchanged in the dead band `[16, 31]`; the input
sequence 0, 20, 28, 40, 20, 10 yields the L2 bit sequence
0, 0, 0, 1, 1, 0. -/
theorem C3_trigger_hysteresis (c : GameController) (now : Nat) (v : Int)
    (h : c.WF) :
    ((c.Axis now Input.Axis.TriggerLeft v).GetLastState.buttonsState.testBit 8 =
        (if 31 < v then true
          else if v < 16 then false
          else c.GetLastState.buttonsState.testBit 8)) ∧
      ((c.Axis now Input.Axis.TriggerRight v).GetLastState.buttonsState.testBit 9 =
        (if 31 < v then true
          else if v < 16 then false
          else c.GetLastState.buttonsState.testBit 9)) ∧
      ((List.scanl (fun cc w => cc.Axis 0 Input.Axis.TriggerLeft w) initController
            [0, 20, 28, 40, 20, 10]).tail.map
          (fun cc => cc.GetLastState.buttonsState.testBit 8)) =
        [false, false, false, true, true, false] := by
  refine ⟨?_, ?_, by decide⟩
  · unfold GameController.Axis
    rw [getLast_AddState _ _ h]
    simp only [ON_THRESHOLD, OFF_THRESHOLD]
    by_cases h1 : (31 : Int) < v
    · simp [h1, Nat.testBit_lor, L2_testBit]
    · by_cases h2 : v < (16 : Int)
      · simp [h1, h2, Nat.testBit_land, u32Not_L2_testBit]
      · simp [h1, h2]
  · unfold GameController.Axis
    rw [getLast_AddState _ _ h]
    simp only [ON_THRESHOLD, OFF_THRESHOLD]
    by_cases h1 : (31 : Int) < v
    · simp [h1, Nat.testBit_lor, R2_testBit]
    · by_cases h2 : v < (16 : Int)
      · simp [h1, h2, Nat.testBit_land, u32Not_R2_testBit]
      · simp [h1, h2]

theorem C3_trigger_hysteresis_witness :
    initController.WF ∧
      (initController.Axis 0 Input.Axis.TriggerLeft 40).GetLastState.buttonsState.testBit 8 =
        (if (31 : Int) < 40 then true
          else if (40 : Int) < 16 then false
          else initController.GetLastState.buttonsState.testBit 8) :=
  ⟨by constructor <;> rfl,
    (C3_trigger_hysteresis initController 0 40 (by constructor <;> rfl)).1⟩

theorem C6_latest_after_append_witness :
    initController.WF ∧
      ((initController.AddState { time := 3, buttonsState := 5, axes := fun _ => 0 }).GetLastState
          = { time := 3, buttonsState := 5, axes := fun _ => 0 } ∧
        initController.GetLastState = State.zero) :=
  ⟨by constructor <;> rfl,
    C6_latest_after_append initController _ (by constructor <;> rfl)⟩

theorem CheckButton_split (c : GameController) (now mask : Nat) (p : Bool) :
    ∃ st, c.CheckButton now mask p = c.AddState st ∧ st.time = now := by
  unfold GameController.CheckButton
  exact ⟨_, rfl, by split_ifs <;> rfl⟩

theorem Axis_split (c : GameController) (now : Nat) (a : Input.Axis) (v : Int) :
    ∃ st, c.Axis now a v = c.AddState st ∧ st.time = now := by
  unfold GameController.Axis
  exact ⟨_, rfl, by split_ifs <;> rfl⟩

theorem TimeInv_AddState (c : GameController) (s : State) (B : Nat) (hWF : c.WF)
    (hcnt : c.statesNum ≤ MAX_STATES) (hinv : TimeInv c B) (hB : B ≤ s.time) :
    TimeInv (c.AddState s) s.time := by
  obtain ⟨hs, ho⟩ := hWF
  obtain ⟨hsort, hbound⟩ := hinv
  by_cases hfull : MAX_STATES ≤ c.statesNum
  · have hc64 : c.statesNum = 64 := by rw [MAX_STATES_eq] at hfull hcnt; omega
    have hnum : (c.AddState s).statesNum = 64 := by
      rw [AddState_def]
      dsimp only
      rw [if_pos hfull, MAX_STATES_eq]
    have hlt : ∀ k, k < 63 → liveTime (c.AddState s) k = liveTime c (k + 1) := by
      intro k hk
      rw [AddState_def]
      unfold liveTime newIndex
      dsimp only
      simp only [hfull, if_true]
      have hidx : ((c.firstState + 1) % MAX_STATES + k) % MAX_STATES =
          (c.firstState + (k + 1)) % MAX_STATES := by
        rw [MAX_STATES_eq] at *
        omega
      have hne : ((c.firstState + 1) % MAX_STATES + (MAX_STATES - 1)) % MAX_STATES ≠
          (c.firstState + (k + 1)) % MAX_STATES := by
        rw [MAX_STATES_eq] at *
        omega
      rw [hidx, getD_set_ne _ _ _ _ _ hne]
    have hlast : liveTime (c.AddState s) 63 = s.time := by
      rw [AddState_def]
      unfold liveTime newIndex
      dsimp only
      simp only [hfull, if_true]
      have hidx : ((c.firstState + 1) % MAX_STATES + 63) % MAX_STATES =
          ((c.firstState + 1) % MAX_STATES + (MAX_STATES - 1)) % MAX_STATES := by
        rw [MAX_STATES_eq]
      rw [hidx, getD_set_self _ _ _ _
        (by rw [hs]; exact Nat.mod_lt _ (by simp [MAX_STATES]))]
    constructor
    · intro i j hij hj
      rw [hnum] at hj
      rcases Nat.lt_or_ge j 63 with hj63 | hj63
      · rw [hlt i (by omega), hlt j hj63]
        exact hsort (i + 1) (j + 1) (by omega) (by omega)
      · have hj' : j = 63 := by omega
        subst hj'
        rw [hlast]
        rcases Nat.lt_or_ge i 63 with hi | hi
        · rw [hlt i hi]
          exact le_trans (hbound (i + 1) (by omega)) hB
        · have hi' : i = 63 := by omega
          subst hi'
          rw [hlast]
    · intro j hj
      rw [hnum] at hj
      rcases Nat.lt_or_ge j 63 with hj63 | hj63
      · rw [hlt j hj63]
        exact le_trans (hbound (j + 1) (by omega)) hB
      · have hj' : j = 63 := by omega
        subst hj'
        rw [hlast]
  · have hnum : (c.AddState s).statesNum = c.statesNum + 1 := by
      rw [AddState_def]
      dsimp only
      rw [if_neg hfull]
    have hlt : ∀ k, k < c.statesNum → liveTime (c.AddState s) k = liveTime c k := by
      intro k hk
      rw [AddState_def]
      unfold liveTime newIndex
      dsimp only
      simp only [hfull, if_false]
      have hne : (c.firstState + c.statesNum) % MAX_STATES ≠
          (c.firstState + k) % MAX_STATES := by
        rw [MAX_STATES_eq] at *
        omega
      rw [getD_set_ne _ _ _ _ _ hne]
    have hlast : liveTime (c.AddState s) c.statesNum = s.time := by
      rw [AddState_def]
      unfold liveTime newIndex
      dsimp only
      simp only [hfull, if_false]
      rw [getD_set_self _ _ _ _
        (by rw [hs]; exact Nat.mod_lt _ (by simp [MAX_STATES]))]
    constructor
    · intro i j hij hj
      rw [hnum] at hj
      rcases Nat.lt_or_ge j c.statesNum with hjc | hjc
      · rw [hlt i (by omega), hlt j hjc]
        exact hsort i j hij hjc
      · have hj' : j = c.statesNum := by omega
        subst hj'
        rw [hlast]
        rcases Nat.lt_or_ge i c.statesNum with hi | hi
        · rw [hlt i hi]
          exact le_trans (hbound i hi) hB
        · have hi' : i = c.statesNum := by omega
          subst hi'
          rw [hlast]
    · intro j hj
      rw [hnum] at hj
      rcases Nat.lt_or_ge j c.statesNum with hjc | hjc
      · rw [hlt j hjc]
        exact le_trans (hbound j hjc) hB
      · have hj' : j = c.statesNum := by omega
        subst hj'
        rw [hlast]

theorem WF_applyEv (c : GameController) (e : Ev) (h : c.WF) : (applyEv c e).WF := by
  cases e with
  | button n m p =>
    obtain ⟨st, heq, _⟩ := CheckButton_split c n m p
    show (c.CheckButton n m p).WF
    rw [heq]
    exact WF_AddState c st h
  | axis n a v =>
    obtain ⟨st, heq, _⟩ := Axis_split c n a v
    show (c.Axis n a v).WF
    rw [heq]
    exact WF_AddState c st h

theorem statesNum_applyEv_le (c : GameController) (e : Ev)
    (h : c.statesNum ≤ MAX_STATES) : (applyEv c e).statesNum ≤ MAX_STATES := by
  cases e with
  | button n m p =>
    obtain ⟨st, heq, _⟩ := CheckButton_split c n m p
    show (c.CheckButton n m p).statesNum ≤ MAX_STATES
    rw [heq]
    exact statesNum_AddState_le c st h
  | axis n a v =>
    obtain ⟨st, heq, _⟩ := Axis_split c n a v
    show (c.Axis n a v).statesNum ≤ MAX_STATES
    rw [heq]
    exact statesNum_AddState_le c st h

theorem TimeInv_applyEv (c : GameController) (e : Ev) (B : Nat) (hWF : c.WF)
    (hcnt : c.statesNum ≤ MAX_STATES) (hinv : TimeInv c B) (hB : B ≤ e.now) :
    TimeInv (applyEv c e) e.now := by
  cases e with
  | button n m p =>
    obtain ⟨st, heq, ht⟩ := CheckButton_split c n m p
    show TimeInv (c.CheckButton n m p) n
    rw [heq, ← ht]
    exact TimeInv_AddState c st B hWF hcnt hinv (ht ▸ hB)
  | axis n a v =>
    obtain ⟨st, heq, ht⟩ := Axis_split c n a v
    show TimeInv (c.Axis n a v) n
    rw [heq, ← ht]
    exact TimeInv_AddState c st B hWF hcnt hinv (ht ▸ hB)

theorem chain_zero_of_chain' (l : List Nat) (h : List.Chain' (· ≤ ·) l) :
    List.Chain (· ≤ ·) 0 l := by
  cases l with
  | nil => exact List.Chain.nil
  | cons a t => exact List.Chain.cons (Nat.zero_le a) h

theorem TimeInv_foldl (evs : List Ev) :
    ∀ (c : GameController) (B : Nat), c.WF → c.statesNum ≤ MAX_STATES →
      TimeInv c B → List.Chain (· ≤ ·) B (evs.map Ev.now) →
      ∃ B2, TimeInv (evs.foldl applyEv c) B2 := by
  induction evs with
  | nil => exact fun c B _ _ h3 _ => ⟨B, h3⟩
  | cons e t ih =>
    intro c B h1 h2 h3 hchain
    cases hchain with
    | cons hBe htail =>
      exact ih (applyEv c e) e.now (WF_applyEv c e h1) (statesNum_applyEv_le c e h2)
        (TimeInv_applyEv c e B h1 h2 h3 hBe) htail

/-- C8: if the timestamp source is monotone (the sequence of values it
returns is non-decreasing), then after any sequence of `CheckButton` and
`Axis` calls the timestamps of the live samples in the ring are
non-decreasing in append order. -/
theorem C8_timestamps_monotone (evs : List Ev)
    (hmono : List.Chain' (· ≤ ·) (evs.map Ev.now)) :
    ∀ i j, i ≤ j → j < (evs.foldl applyEv initController).statesNum →
      liveTime (evs.foldl applyEv initController) i ≤
        liveTime (evs.foldl applyEv initController) j := by
  obtain ⟨B2, hinv⟩ := TimeInv_foldl evs initController 0 (by constructor <;> rfl)
    (by rw [MAX_STATES_eq]; exact Nat.zero_le 64)
    ⟨fun i j _ hj => absurd hj (Nat.not_lt_zero j),
      fun j hj => absurd hj (Nat.not_lt_zero j)⟩
    (chain_zero_of_chain' _ hmono)
  exact hinv.1

theorem C8_timestamps_monotone_witness :
    List.Chain' (· ≤ ·)
        (([Ev.button 1 4 true, Ev.axis 2 Input.Axis.LeftStickX 5]).map Ev.now) ∧
      ∀ i j, i ≤ j →
        j < (([Ev.button 1 4 true,
            Ev.axis 2 Input.Axis.LeftStickX 5]).foldl applyEv initController).statesNum →
        liveTime (([Ev.button 1 4 true,
            Ev.axis 2 Input.Axis.LeftStickX 5]).foldl applyEv initController) i ≤
          liveTime (([Ev.button 1 4 true,
            Ev.axis 2 Input.Axis.LeftStickX 5]).foldl applyEv initController) j :=
  ⟨by norm_num [Ev.now, List.chain'_cons, List.chain'_singleton],
    C8_timestamps_monotone _
      (by norm_num [Ev.now, List.chain'_cons, List.chain'_singleton])⟩

end Input
